import Mathlib

/-!
Verification development for the `sunset` brightness server (`src/main.rs`).

The program keeps one mutable `Brightness { value: f32 }`, clamps every
mutation to `[10, 200]`, derives a backlight level and a redshift blend
factor from the stored value, and exposes four HTTP handlers that mutate the
value and restart two external subprocesses.

Modelling conventions:
* `f32` is embedded as `F32`: NaN, the two infinities, and finite values as
  exact rationals.  Rounding of `f32` arithmetic and signed zeros are
  abstracted away (arithmetic on finite values is exact rational arithmetic);
  NaN propagation and IEEE comparison semantics are kept, since the source's
  clamp (`max`/`min`) and branch conditions depend on them.
* Subprocess execution is abstracted by an `Env` that records whether the
  `light` invocation and the `redshift` spawn succeed, and which child handle
  a successful spawn returns.  The `.unwrap()` calls in `AppData::restart`
  are modelled by a distinguished `panicked` outcome: an `Err` from
  `run_light` or `run_redshift` aborts the handler instead of being returned
  to the HTTP layer.
* `get_screen_brightness` is modelled with the subprocess stdout and its
  parsing abstracted to the parsed reading `r : F32`.
-/

namespace Sunset

/-- Model of Rust `f32`: NaN, `+inf`, `-inf`, or a finite value carried as an
exact rational.  Rounding and signed zeros are abstracted away. -/
inductive F32 where
  | nan : F32
  | inf : F32
  | ninf : F32
  | val : ℚ → F32
deriving DecidableEq

/-- IEEE `<` on `f32`: every comparison involving NaN is false. -/
def F32.lt : F32 → F32 → Bool
  | .nan, _ => false
  | _, .nan => false
  | .ninf, .ninf => false
  | .ninf, _ => true
  | _, .ninf => false
  | .inf, _ => false
  | .val _, .inf => true
  | .val a, .val b => decide (a < b)

/-- IEEE `>` on `f32` (used by `to_redshift`'s branch `self.value > 100f32`). -/
def F32.gt (a b : F32) : Bool := F32.lt b a

/-- Rust `f32::max`: returns the non-NaN operand when exactly one operand is
NaN, NaN when both are. -/
def F32.max : F32 → F32 → F32
  | .nan, b => b
  | a, .nan => a
  | .inf, _ => .inf
  | _, .inf => .inf
  | .ninf, b => b
  | a, .ninf => a
  | .val a, .val b => .val (Max.max a b)

/-- Rust `f32::min`: returns the non-NaN operand when exactly one operand is
NaN, NaN when both are. -/
def F32.min : F32 → F32 → F32
  | .nan, b => b
  | a, .nan => a
  | .ninf, _ => .ninf
  | _, .ninf => .ninf
  | .inf, b => b
  | a, .inf => a
  | .val a, .val b => .val (Min.min a b)

/-- `f32` negation. -/
def F32.neg : F32 → F32
  | .nan => .nan
  | .inf => .ninf
  | .ninf => .inf
  | .val q => .val (-q)

/-- `f32` addition; exact on finite values (rounding abstracted), NaN
propagating, `inf + -inf = NaN`. -/
def F32.add : F32 → F32 → F32
  | .nan, _ => .nan
  | _, .nan => .nan
  | .inf, .ninf => .nan
  | .ninf, .inf => .nan
  | .inf, _ => .inf
  | _, .inf => .inf
  | .ninf, _ => .ninf
  | _, .ninf => .ninf
  | .val a, .val b => .val (a + b)

/-- `f32` subtraction, via negation. -/
def F32.sub (a b : F32) : F32 := a.add b.neg

/-- `f32` division; exact on finite values (rounding abstracted), signed
zeros not modelled (a zero divisor takes the sign of the dividend). -/
def F32.div : F32 → F32 → F32
  | .nan, _ => .nan
  | _, .nan => .nan
  | .inf, .inf => .nan
  | .inf, .ninf => .nan
  | .ninf, .inf => .nan
  | .ninf, .ninf => .nan
  | .inf, .val b => if b < 0 then .ninf else .inf
  | .ninf, .val b => if b < 0 then .inf else .ninf
  | .val _, .inf => .val 0
  | .val _, .ninf => .val 0
  | .val a, .val b =>
      if b = 0 then (if a = 0 then .nan else if a < 0 then .ninf else .inf)
      else .val (a / b)

/-- `struct Brightness { value: f32 }` -/
structure Brightness where
  value : F32
deriving DecidableEq

/-- `Brightness::to_light`: `if self.value < 100.10673f32 { 0.10673 } else
{ self.value - 100f32 }` (the decimal literals are taken exactly). -/
def Brightness.to_light (self : Brightness) : F32 :=
  if F32.lt self.value (F32.val (10010673/100000)) then F32.val (10673/100000)
  else F32.sub self.value (F32.val 100)

/-- `Brightness::to_redshift`: `if self.value > 100f32 { 1.0 } else
{ self.value / 100.0 }`. -/
def Brightness.to_redshift (self : Brightness) : F32 :=
  if F32.gt self.value (F32.val 100) then F32.val 1
  else F32.div self.value (F32.val 100)

/-- `Brightness::set`: `self.value = value.max(10.0).min(200.0)`. -/
def Brightness.set (_self : Brightness) (value : F32) : Brightness :=
  ⟨(value.max (F32.val 10)).min (F32.val 200)⟩

/-- `Brightness::change`: `self.set(self.value + amount)`. -/
def Brightness.change (self : Brightness) (amount : F32) : Brightness :=
  self.set (self.value.add amount)

/-- The stored value is a finite number in the clamp range `[10, 200]`. -/
def inClampRange (w : F32) : Prop :=
  ∃ q : ℚ, w = F32.val q ∧ 10 ≤ q ∧ q ≤ 200

/-- Outcome of one handler invocation as seen from the HTTP layer:
`ok200` is the handler returning `Ok` (empty 200 response), `err500` is the
handler returning `Err` (actix turns a handler `Err` into an error
response), `panicked` is a panic inside the handler (an `unwrap` on `Err`) —
no response value is produced at all. -/
inductive HandlerResult where
  | ok200 : HandlerResult
  | err500 : HandlerResult
  | panicked : HandlerResult
deriving DecidableEq

/-- Abstraction of the external world for one request: whether the `light`
spawn-and-wait succeeds, whether the `redshift` spawn succeeds, and the
child handle a successful `redshift` spawn returns. -/
structure Env where
  lightOk : Bool
  redshiftOk : Bool
  newChild : Nat
deriving DecidableEq

/-- `run_light`: spawns `light -S <brightness>` and waits; `Err` when the
spawn or the wait fails. -/
def run_light (env : Env) (_brightness : F32) : Except String Unit :=
  if env.lightOk then Except.ok () else Except.error "light spawn or wait failed"

/-- `run_redshift`: spawns `redshift -m wayland -O 6500 -b <brightness>` and
returns the child handle; `Err` when the spawn fails. -/
def run_redshift (env : Env) (_brightness : F32) : Except String Nat :=
  if env.redshiftOk then Except.ok env.newChild
  else Except.error "redshift spawn failed"

/-- `struct AppData { brightness: Brightness, redshift_process: Child }`;
the child is abstracted to a handle. -/
structure AppData where
  brightness : Brightness
  redshift_process : Nat
deriving DecidableEq

/-- `AppData::kill_child`: kills the current redshift process; a kill
failure is printed and swallowed, so there is no observable state change in
the model (process liveness is not modelled). -/
def AppData.kill_child (self : AppData) : AppData := self

/-- `AppData::restart`: kills the child, runs `light` to completion, then
spawns a fresh `redshift` and stores its handle.  Both subprocess results
are `.unwrap()`ed in the source, so an `Err` from either is a panic, not a
returned error. -/
def AppData.restart (env : Env) (self : AppData) : AppData × HandlerResult :=
  let d := self.kill_child
  match run_light env d.brightness.to_light with
  | Except.error _ => (d, HandlerResult.panicked)
  | Except.ok _ =>
    match run_redshift env d.brightness.to_redshift with
    | Except.error _ => (d, HandlerResult.panicked)
    | Except.ok child => ({ d with redshift_process := child }, HandlerResult.ok200)

/-- `struct Request { brightness: f32 }` (the `/set` query). -/
structure Request where
  brightness : F32
deriving DecidableEq

/-- `set_handler` (`/set?brightness=...`): stores the clamped value, then
restarts.  Returns the resulting state and what the HTTP layer sees. -/
def set_handler (env : Env) (req : Request) (d : AppData) : AppData × HandlerResult :=
  let d1 : AppData := { d with brightness := d.brightness.set req.brightness }
  d1.restart env

/-- Rust's `format!("{}", value)` on the stored `f32`, abstracted to a plain
rendering of the modelled value. -/
def formatF32 : F32 → String
  | F32.nan => "NaN"
  | F32.inf => "inf"
  | F32.ninf => "-inf"
  | F32.val q => toString q

/-- `get_handler` (`/get`): returns the current value formatted as plain
text; acquires the lock only to read. -/
def get_handler (d : AppData) : AppData × String :=
  (d, formatF32 d.brightness.value)

/-- `brighter_handler` (`/brighter`): `change(5.0)`, then restart. -/
def brighter_handler (env : Env) (d : AppData) : AppData × HandlerResult :=
  let d1 : AppData := { d with brightness := d.brightness.change (F32.val 5) }
  d1.restart env

/-- `darker_handler` (`/darker`): `change(-5.0)`, then restart. -/
def darker_handler (env : Env) (d : AppData) : AppData × HandlerResult :=
  let d1 : AppData := { d with brightness := d.brightness.change (F32.val (-5)) }
  d1.restart env

/-- `get_screen_brightness`: runs `light`, parses its stdout as an `f32`
reading `r`, and returns `Brightness { value: r + 100.0 }` — no clamping.
The subprocess stdout and its parsing are abstracted to the parsed reading. -/
def get_screen_brightness (r : F32) : Brightness :=
  ⟨F32.add r (F32.val 100)⟩

/-- Helper: `restart` never touches the stored brightness, in any
environment and from any state. -/
theorem restart_preserves_brightness (env : Env) (d : AppData) :
    (d.restart env).1.brightness = d.brightness := by
  obtain ⟨lo, ro, nc⟩ := env
  cases lo <;> cases ro <;> rfl

/-- Helper: after any `set`, the stored value is a finite number in
`[10, 200]`. -/
theorem set_value_mem_clamp_range (b : Brightness) (v : F32) :
    inClampRange ((b.set v).value) := by
  cases v with
  | nan => exact ⟨10, rfl, by norm_num, by norm_num⟩
  | inf => exact ⟨200, rfl, by norm_num, by norm_num⟩
  | ninf => exact ⟨10, rfl, by norm_num, by norm_num⟩
  | val q =>
    refine ⟨Min.min (Max.max q 10) 200, rfl, ?_, min_le_right _ _⟩
    exact le_min (le_max_right _ _) (by norm_num)

/-- Claim C1, counterexample: at the input NaN, the claim's case analysis
predicts the stored value NaN (`NaN < 10` and `200 < NaN` are both false,
so "v otherwise" applies), but `set(NaN)` stores `10.0`. -/
theorem set_nan_stores_ten_not_nan :
    F32.lt F32.nan (F32.val 10) = false ∧
    F32.lt (F32.val 200) F32.nan = false ∧
    (Brightness.set ⟨F32.val 50⟩ F32.nan).value = F32.val 10 ∧
    (Brightness.set ⟨F32.val 50⟩ F32.nan).value ≠ F32.nan := by
  decide

/-- Claim C1, amended: for every non-NaN `f32` input `v`, `set(v)` stores
`v` clamped to `[10, 200]`: `10` when `v < 10`, `200` when `v > 200`, and
`v` itself otherwise. -/
theorem set_clamps_nonNaN (b : Brightness) (v : F32) (h : v ≠ F32.nan) :
    (b.set v).value =
      (if F32.lt v (F32.val 10) then F32.val 10
       else if F32.lt (F32.val 200) v then F32.val 200
       else v) := by
  cases v with
  | nan => exact absurd rfl h
  | inf => rfl
  | ninf => rfl
  | val q =>
    show F32.val (Min.min (Max.max q 10) 200) = _
    by_cases h1 : q < 10
    · rw [max_eq_right h1.le, min_eq_left (by norm_num : (10:ℚ) ≤ 200)]
      simp [F32.lt, h1]
    · rw [max_eq_left (not_lt.mp h1)]
      by_cases h2 : 200 < q
      · rw [min_eq_right h2.le]
        simp [F32.lt, h1, h2]
      · rw [min_eq_left (not_lt.mp h2)]
        simp [F32.lt, h1, h2]

/-- Witness for `set_clamps_nonNaN` at `v = 5`. -/
theorem set_clamps_nonNaN_witness :
    F32.val 5 ≠ F32.nan ∧
    (Brightness.set ⟨F32.val 50⟩ (F32.val 5)).value =
      (if F32.lt (F32.val 5) (F32.val 10) then F32.val 10
       else if F32.lt (F32.val 200) (F32.val 5) then F32.val 200
       else F32.val 5) :=
  ⟨by decide, set_clamps_nonNaN ⟨F32.val 50⟩ (F32.val 5) (by decide)⟩

/-- Claim C2, counterexample: with a failing `light` invocation, a `/set`
request ends in a panic (the `unwrap` in `restart`), not in an `Err`
returned to the HTTP layer. -/
theorem set_handler_spawn_failure_panics :
    (set_handler ⟨false, true, 7⟩ ⟨F32.val 150⟩ ⟨⟨F32.val 20⟩, 3⟩).2 =
      HandlerResult.panicked ∧
    (set_handler ⟨false, true, 7⟩ ⟨F32.val 150⟩ ⟨⟨F32.val 20⟩, 3⟩).2 ≠
      HandlerResult.err500 := by
  decide

/-- Claim C2, amended: a subprocess spawn/wait failure during the restart
triggered by `/set`, `/brighter` or `/darker` makes the handler panic (the
results are `unwrap`ed inside `restart`); the mutating handlers never
return an error to the HTTP layer — the outcome is `ok200` exactly when
both subprocess calls succeed and `panicked` otherwise, never `err500`. -/
theorem handlers_panic_on_subprocess_failure (env : Env) (req : Request) (d : AppData) :
    (set_handler env req d).2 =
      (if env.lightOk && env.redshiftOk then HandlerResult.ok200
       else HandlerResult.panicked) ∧
    (brighter_handler env d).2 =
      (if env.lightOk && env.redshiftOk then HandlerResult.ok200
       else HandlerResult.panicked) ∧
    (darker_handler env d).2 =
      (if env.lightOk && env.redshiftOk then HandlerResult.ok200
       else HandlerResult.panicked) := by
  obtain ⟨lo, ro, nc⟩ := env
  cases lo <;> cases ro <;> exact ⟨rfl, rfl, rfl⟩

/-- Claim C3: `to_light` returns `0.10673` when the stored value is below
`100.10673` and `value - 100` otherwise; at `150` it returns `50`, at `50`
it returns `0.10673`. -/
theorem to_light_formula :
    (∀ q : ℚ, Brightness.to_light ⟨F32.val q⟩ =
      (if q < 10010673/100000 then F32.val (10673/100000)
       else F32.val (q - 100))) ∧
    Brightness.to_light ⟨F32.val 150⟩ = F32.val 50 ∧
    Brightness.to_light ⟨F32.val 50⟩ = F32.val (10673/100000) := by
  refine ⟨?_, ?_, ?_⟩
  · intro q
    by_cases h : q < 10010673/100000
    · simp [Brightness.to_light, F32.lt, h]
    · simp [Brightness.to_light, F32.lt, F32.sub, F32.neg, F32.add, h,
        sub_eq_add_neg]
  · norm_num [Brightness.to_light, F32.lt, F32.sub, F32.add, F32.neg]
  · norm_num [Brightness.to_light, F32.lt]

/-- Claim C4: `to_redshift` returns `1.0` when the stored value exceeds
`100` and `value / 100` otherwise; at `150` it returns `1`, at `50` it
returns `0.5`. -/
theorem to_redshift_formula :
    (∀ q : ℚ, Brightness.to_redshift ⟨F32.val q⟩ =
      (if 100 < q then F32.val 1 else F32.val (q / 100))) ∧
    Brightness.to_redshift ⟨F32.val 150⟩ = F32.val 1 ∧
    Brightness.to_redshift ⟨F32.val 50⟩ = F32.val (1/2) := by
  refine ⟨?_, ?_, ?_⟩
  · intro q
    by_cases h : 100 < q
    · simp [Brightness.to_redshift, F32.gt, F32.lt, h]
    · simp [Brightness.to_redshift, F32.gt, F32.lt, F32.div, h]
  · norm_num [Brightness.to_redshift, F32.gt, F32.lt]
  · norm_num [Brightness.to_redshift, F32.gt, F32.lt, F32.div]

/-- Claim C5: `change(amount)` is exactly `set(value + amount)` — the two
produce equal states (hence equal stored values). -/
theorem change_is_set_of_sum (b : Brightness) (amount : F32) :
    b.change amount = b.set (b.value.add amount) := rfl

/-- Claim C6: within the clamp boundaries, `change(5)` followed by
`change(-5)` restores the stored value exactly. -/
theorem change_up_down_roundtrip (q : ℚ) (h1 : 10 ≤ q) (h2 : q + 5 ≤ 200) :
    ((Brightness.mk (F32.val q)).change (F32.val 5)).change (F32.val (-5)) =
      Brightness.mk (F32.val q) := by
  have e1 : (Brightness.mk (F32.val q)).change (F32.val 5) =
      Brightness.mk (F32.val (q + 5)) := by
    show Brightness.mk (F32.val (Min.min (Max.max (q + 5) 10) 200)) = _
    rw [max_eq_left (by linarith), min_eq_left h2]
  rw [e1]
  show Brightness.mk (F32.val (Min.min (Max.max (q + 5 + -5) 10) 200)) = _
  rw [max_eq_left (by linarith), min_eq_left (by linarith)]
  norm_num

/-- Witness for `change_up_down_roundtrip` at `q = 50`. -/
theorem change_up_down_roundtrip_witness :
    (10:ℚ) ≤ 50 ∧ (50:ℚ) + 5 ≤ 200 ∧
    ((Brightness.mk (F32.val 50)).change (F32.val 5)).change (F32.val (-5)) =
      Brightness.mk (F32.val 50) :=
  ⟨by norm_num, by norm_num,
    change_up_down_roundtrip 50 (by norm_num) (by norm_num)⟩

/-- Claim C7: through the HTTP handlers, clamping applies — `/set` with
`brightness=5` leaves the stored value at `10`, and `/brighter` on a stored
value of `198` leaves it at `200`, in every subprocess environment. -/
theorem http_handlers_clamp (env : Env) (d : AppData) :
    (set_handler env ⟨F32.val 5⟩ d).1.brightness.value = F32.val 10 ∧
    (d.brightness.value = F32.val 198 →
      (brighter_handler env d).1.brightness.value = F32.val 200) := by
  constructor
  · have e1 : (set_handler env ⟨F32.val 5⟩ d).1.brightness =
        d.brightness.set (F32.val 5) :=
      restart_preserves_brightness env _
    rw [e1]
    show F32.val (Min.min (Max.max 5 10) 200) = F32.val 10
    norm_num
  · intro h
    have e1 : (brighter_handler env d).1.brightness =
        d.brightness.change (F32.val 5) :=
      restart_preserves_brightness env _
    rw [e1, Brightness.change, h]
    show F32.val (Min.min (Max.max (198 + 5) 10) 200) = F32.val 200
    norm_num

/-- Witness for `http_handlers_clamp` at a concrete environment and a state
holding `198`. -/
theorem http_handlers_clamp_witness :
    (set_handler ⟨true, true, 0⟩ ⟨F32.val 5⟩
      ⟨⟨F32.val 198⟩, 0⟩).1.brightness.value = F32.val 10 ∧
    (brighter_handler ⟨true, true, 0⟩
      ⟨⟨F32.val 198⟩, 0⟩).1.brightness.value = F32.val 200 :=
  ⟨(http_handlers_clamp ⟨true, true, 0⟩ ⟨⟨F32.val 198⟩, 0⟩).1,
   (http_handlers_clamp ⟨true, true, 0⟩ ⟨⟨F32.val 198⟩, 0⟩).2 rfl⟩

/-- Claim C8: `/get` is effect-free — it returns the current brightness
value formatted as plain text and leaves the whole state (stored value and
process handle) unchanged. -/
theorem get_handler_no_state_change (d : AppData) :
    (get_handler d).1 = d ∧ (get_handler d).2 = formatF32 d.brightness.value :=
  ⟨rfl, rfl⟩

/-- Claim C9: the startup constructor stores the parsed reading plus `100`
without clamping, so any reading above `100` yields an initial value above
`200`, outside the `[10, 200]` range. -/
theorem initial_value_unclamped (q : ℚ) (h : 100 < q) :
    (get_screen_brightness (F32.val q)).value = F32.val (q + 100) ∧
    F32.lt (F32.val 200) ((get_screen_brightness (F32.val q)).value) = true ∧
    ¬ inClampRange ((get_screen_brightness (F32.val q)).value) := by
  refine ⟨rfl, ?_, ?_⟩
  · simp only [get_screen_brightness, F32.add, F32.lt, decide_eq_true_eq]
    linarith
  · rintro ⟨r, hr, hr1, hr2⟩
    rw [show (get_screen_brightness (F32.val q)).value = F32.val (q + 100)
      from rfl] at hr
    injection hr with hqr
    linarith

/-- Witness for `initial_value_unclamped` at the reading `150`. -/
theorem initial_value_unclamped_witness :
    (100:ℚ) < 150 ∧
    ((get_screen_brightness (F32.val 150)).value = F32.val (150 + 100) ∧
     F32.lt (F32.val 200) ((get_screen_brightness (F32.val 150)).value) = true ∧
     ¬ inClampRange ((get_screen_brightness (F32.val 150)).value)) :=
  ⟨by norm_num, initial_value_unclamped 150 (by norm_num)⟩

/-- Claim C10: `set(NaN)` stores exactly `10.0`; `change(amount)` stores
`10.0` whenever `value + amount` is NaN; and after any `set` or `change`
the stored value is a finite (non-NaN) number in `[10, 200]`. -/
theorem set_change_nan_and_range (b : Brightness) (amount v : F32) :
    (Brightness.set b F32.nan).value = F32.val 10 ∧
    (b.value.add amount = F32.nan → (b.change amount).value = F32.val 10) ∧
    inClampRange ((b.set v).value) ∧
    inClampRange ((b.change amount).value) := by
  refine ⟨?_, ?_, set_value_mem_clamp_range b v,
    set_value_mem_clamp_range b (b.value.add amount)⟩
  · show F32.val (Min.min (10:ℚ) 200) = F32.val 10
    norm_num
  · intro h
    rw [Brightness.change, h]
    show F32.val (Min.min (10:ℚ) 200) = F32.val 10
    norm_num

/-- Witness for `set_change_nan_and_range` at a state holding `50`, the
amount NaN and the input `300`. -/
theorem set_change_nan_and_range_witness :
    (Brightness.set ⟨F32.val 50⟩ F32.nan).value = F32.val 10 ∧
    (Brightness.change ⟨F32.val 50⟩ F32.nan).value = F32.val 10 ∧
    inClampRange ((Brightness.set ⟨F32.val 50⟩ (F32.val 300)).value) :=
  ⟨(set_change_nan_and_range ⟨F32.val 50⟩ F32.nan (F32.val 300)).1,
   (set_change_nan_and_range ⟨F32.val 50⟩ F32.nan (F32.val 300)).2.1 rfl,
   (set_change_nan_and_range ⟨F32.val 50⟩ F32.nan (F32.val 300)).2.2.1⟩

end Sunset
